import Mathlib

/-!
# CPP03: the ClapTrap / ScavTrap state machine

A shallow embedding of `src/ex00/ClapTrap.cpp` and `src/ex01/ScavTrap.cpp`.

* An object is a record of its four data members.
* Every member function is a pure function from the state before the call to
  the state after it, paired with the lines it writes to `std::cout`.
* `unsigned int` values are natural numbers; where C++ arithmetic can leave the
  range of the type the result is reduced modulo `UINT_MAX + 1`.
* The copy operations compare and use object addresses, so they are embedded
  over a store mapping addresses to objects.
-/

namespace CPP03

/-! ## Data model -/

/-- Modelled from the spec: the class declarations (`ClapTrap.hpp`, `ScavTrap.hpp`)
are not among the sources. The spec gives `hitPoints`, `energyPoints` and
`attackDamage` as unsigned integers and the member functions take `unsigned int`;
`UINT_MAX` is the largest value of a 32-bit `unsigned int`. -/
def UINT_MAX : Nat := 4294967295

/-- The C++ expression `a + b` on two `unsigned int` operands: the sum reduced
modulo `UINT_MAX + 1`. -/
def uadd (a b : Nat) : Nat := (a + b) % (UINT_MAX + 1)

/-- The data members of `class ClapTrap`. -/
structure ClapTrap where
  name : String
  hitPoints : Nat
  energyPoints : Nat
  attackDamage : Nat
deriving DecidableEq, Repr

/-- A `ScavTrap` is a `ClapTrap` base subobject with no data member of its own. -/
structure ScavTrap extends ClapTrap
deriving DecidableEq, Repr

/-- The numeric members hold values of the type `unsigned int`. -/
def ClapTrap.inRange (self : ClapTrap) : Prop :=
  self.hitPoints ≤ UINT_MAX ∧ self.energyPoints ≤ UINT_MAX ∧ self.attackDamage ≤ UINT_MAX

instance (self : ClapTrap) : Decidable self.inRange := by
  unfold ClapTrap.inRange
  infer_instance

/-- A store of objects, indexed by address. -/
abbrev Store (α : Type) := Nat → α

/-! ## ClapTrap (src/ex00/ClapTrap.cpp) -/

/-- Constructor `ClapTrap::ClapTrap()`. -/
def ClapTrap.ClapTrap_default : ClapTrap × List String :=
  ({ name := "Default", hitPoints := 10, energyPoints := 10, attackDamage := 0 },
   ["ClapTrap default constructor called"])

/-- Constructor `ClapTrap::ClapTrap(const std::string& name)`. -/
def ClapTrap.ClapTrap_named (name : String) : ClapTrap × List String :=
  let self : ClapTrap := { name := name, hitPoints := 10, energyPoints := 10, attackDamage := 0 }
  (self, ["ClapTrap " ++ self.name ++ " constructor called"])

/-- Copy assignment `ClapTrap::operator=(const ClapTrap& other)`, for the object at
address `this` and the one at address `other`: unless both are the same object,
the four members are assigned one after the other. -/
def ClapTrap.operator_assign (mem : Store ClapTrap) (this other : Nat) :
    Store ClapTrap × List String :=
  let out := ["ClapTrap assignation operator called"]
  if this ≠ other then
    let m1 := Function.update mem this { mem this with name := (mem other).name }
    let m2 := Function.update m1 this { m1 this with hitPoints := (m1 other).hitPoints }
    let m3 := Function.update m2 this { m2 this with energyPoints := (m2 other).energyPoints }
    let m4 := Function.update m3 this { m3 this with attackDamage := (m3 other).attackDamage }
    (m4, out)
  else
    (mem, out)

/-- Copy constructor `ClapTrap::ClapTrap(const ClapTrap& other)`, building the
object at address `this`. No member initialiser is given: `name` starts as the
empty string and the three numbers start as whatever the store holds there. -/
def ClapTrap.ClapTrap_copy (mem : Store ClapTrap) (this other : Nat) :
    Store ClapTrap × List String :=
  let m0 := Function.update mem this { mem this with name := "" }
  let r := ClapTrap.operator_assign m0 this other
  (r.1, "ClapTrap copy constructor called" :: r.2)

/-- Member function `ClapTrap::attack(const std::string& target)`. -/
def ClapTrap.attack (self : ClapTrap) (target : String) : ClapTrap × List String :=
  if self.energyPoints > 0 ∧ self.hitPoints > 0 then
    ({ self with energyPoints := self.energyPoints - 1 },
     ["ClapTrap " ++ self.name ++ " attacks " ++ target ++ ", causing "
        ++ toString self.attackDamage ++ " points of damage!"])
  else
    (self, ["ClapTrap " ++ self.name ++ " cannot attack!"])

/-- Member function `ClapTrap::takeDamage(unsigned int amount)`. -/
def ClapTrap.takeDamage (self : ClapTrap) (amount : Nat) : ClapTrap × List String :=
  let out := ["ClapTrap " ++ self.name ++ " takes " ++ toString amount ++ " points of damage!"]
  if amount ≥ self.hitPoints then
    ({ self with hitPoints := 0 }, out)
  else
    ({ self with hitPoints := self.hitPoints - amount }, out)

/-- Member function `ClapTrap::beRepaired(unsigned int amount)`. -/
def ClapTrap.beRepaired (self : ClapTrap) (amount : Nat) : ClapTrap × List String :=
  if self.energyPoints > 0 ∧ self.hitPoints > 0 then
    let s1 := { self with hitPoints := uadd self.hitPoints amount }
    ({ s1 with energyPoints := s1.energyPoints - 1 },
     ["ClapTrap " ++ self.name ++ " is repaired for " ++ toString amount ++ " points!"])
  else
    (self, ["ClapTrap " ++ self.name ++ " cannot be repaired!"])

/-- The calls `x.attack(t)` for each `t` of `targets` in turn, as in the loops of
the `main` functions. -/
def ClapTrap.attackSeq (self : ClapTrap) : List String → ClapTrap × List String
  | [] => (self, [])
  | t :: ts =>
    let r := self.attack t
    let rest := ClapTrap.attackSeq r.1 ts
    (rest.1, r.2 ++ rest.2)

/-! ## ScavTrap (src/ex01/ScavTrap.cpp) -/

/-- Constructor `ScavTrap::ScavTrap()`. -/
def ScavTrap.ScavTrap_default : ScavTrap × List String :=
  let base := ClapTrap.ClapTrap_default
  let s0 : ScavTrap := { toClapTrap := base.1 }
  let s1 := { s0 with hitPoints := 100 }
  let s2 := { s1 with energyPoints := 50 }
  let s3 := { s2 with attackDamage := 20 }
  (s3, base.2 ++ ["ScavTrap default constructor called"])

/-- Constructor `ScavTrap::ScavTrap(const std::string& name)`. -/
def ScavTrap.ScavTrap_named (name : String) : ScavTrap × List String :=
  let base := ClapTrap.ClapTrap_named name
  let s0 : ScavTrap := { toClapTrap := base.1 }
  let s1 := { s0 with hitPoints := 100 }
  let s2 := { s1 with energyPoints := 50 }
  let s3 := { s2 with attackDamage := 20 }
  (s3, base.2 ++ ["ScavTrap " ++ s3.name ++ " constructor called"])

/-- The base subobjects of a store of `ScavTrap` objects. -/
def ScavTrap.bases (mem : Store ScavTrap) : Store ClapTrap :=
  fun a => (mem a).toClapTrap

/-- The store of `ScavTrap` objects whose base subobjects are `mem`. -/
def ScavTrap.ofBases (mem : Store ClapTrap) : Store ScavTrap :=
  fun a => { toClapTrap := mem a }

/-- Copy constructor `ScavTrap::ScavTrap(const ScavTrap& other)`: the base
subobject is built by the copy constructor of `ClapTrap`. -/
def ScavTrap.ScavTrap_copy (mem : Store ScavTrap) (this other : Nat) :
    Store ScavTrap × List String :=
  let r := ClapTrap.ClapTrap_copy (ScavTrap.bases mem) this other
  (ScavTrap.ofBases r.1, r.2 ++ ["ScavTrap copy constructor called"])

/-- Copy assignment `ScavTrap::operator=(const ScavTrap& other)`. -/
def ScavTrap.operator_assign (mem : Store ScavTrap) (this other : Nat) :
    Store ScavTrap × List String :=
  let out := ["ScavTrap assignation operator called"]
  if this ≠ other then
    let r := ClapTrap.operator_assign (ScavTrap.bases mem) this other
    (ScavTrap.ofBases r.1, out ++ r.2)
  else
    (mem, out)

/-- Member function `ScavTrap::attack(const std::string& target)`. -/
def ScavTrap.attack (self : ScavTrap) (target : String) : ScavTrap × List String :=
  if self.energyPoints > 0 ∧ self.hitPoints > 0 then
    ({ self with energyPoints := self.energyPoints - 1 },
     ["ScavTrap " ++ self.name ++ " attacks " ++ target ++ ", causing "
        ++ toString self.attackDamage ++ " points of damage!"])
  else
    (self, ["ScavTrap " ++ self.name ++ " cannot attack!"])

/-- Member function `ScavTrap::guardGate()`. -/
def ScavTrap.guardGate (self : ScavTrap) : ScavTrap × List String :=
  (self, ["ScavTrap " ++ self.name ++ " is now in Gate keeper mode."])

/-- The inherited `ClapTrap::takeDamage`, called on a `ScavTrap`. -/
def ScavTrap.takeDamage (self : ScavTrap) (amount : Nat) : ScavTrap × List String :=
  let r := self.toClapTrap.takeDamage amount
  ({ toClapTrap := r.1 }, r.2)

/-- The inherited `ClapTrap::beRepaired`, called on a `ScavTrap`. -/
def ScavTrap.beRepaired (self : ScavTrap) (amount : Nat) : ScavTrap × List String :=
  let r := self.toClapTrap.beRepaired amount
  ({ toClapTrap := r.1 }, r.2)

/-- The calls `x.attack(t)` for each `t` of `targets` in turn, on a `ScavTrap`. -/
def ScavTrap.attackSeq (self : ScavTrap) : List String → ScavTrap × List String
  | [] => (self, [])
  | t :: ts =>
    let r := self.attack t
    let rest := ScavTrap.attackSeq r.1 ts
    (rest.1, r.2 ++ rest.2)

/-! ## Sequences of calls -/

/-- A call of one of the public member functions of `ClapTrap`, with its argument. -/
inductive ClapCall where
  | attack (target : String)
  | takeDamage (amount : Nat)
  | beRepaired (amount : Nat)
deriving DecidableEq, Repr

/-- A call of one of the public member functions of `ScavTrap`, with its argument. -/
inductive ScavCall where
  | attack (target : String)
  | takeDamage (amount : Nat)
  | beRepaired (amount : Nat)
  | guardGate
deriving DecidableEq, Repr

/-- The call `c` made on a `ClapTrap`. -/
def ClapTrap.call (self : ClapTrap) : ClapCall → ClapTrap × List String
  | .attack target => self.attack target
  | .takeDamage amount => self.takeDamage amount
  | .beRepaired amount => self.beRepaired amount

/-- The call `c` made on a `ScavTrap`: `attack` is the override of `ScavTrap`,
`takeDamage` and `beRepaired` are inherited. -/
def ScavTrap.call (self : ScavTrap) : ScavCall → ScavTrap × List String
  | .attack target => self.attack target
  | .takeDamage amount => self.takeDamage amount
  | .beRepaired amount => self.beRepaired amount
  | .guardGate => self.guardGate

/-- The calls of a list made one after the other on the same object, as a `main`
function does: the state after the last one and all the lines written. -/
def runCalls {σ γ : Type} (call : σ → γ → σ × List String) (self : σ) :
    List γ → σ × List String
  | [] => (self, [])
  | c :: cs =>
    let r := call self c
    let rest := runCalls call r.1 cs
    (rest.1, r.2 ++ rest.2)

/-- Whether the call `c` on a `ClapTrap` in state `self` is an accepted `attack`
or `beRepaired`: one made while `energyPoints > 0 && hitPoints > 0`. -/
def ClapTrap.accepts (self : ClapTrap) : ClapCall → Bool
  | .attack _ => decide (self.energyPoints > 0 ∧ self.hitPoints > 0)
  | .takeDamage _ => false
  | .beRepaired _ => decide (self.energyPoints > 0 ∧ self.hitPoints > 0)

/-- Whether the call `c` on a `ScavTrap` in state `self` is an accepted `attack`
or `beRepaired`. -/
def ScavTrap.accepts (self : ScavTrap) : ScavCall → Bool
  | .attack _ => decide (self.energyPoints > 0 ∧ self.hitPoints > 0)
  | .takeDamage _ => false
  | .beRepaired _ => decide (self.energyPoints > 0 ∧ self.hitPoints > 0)
  | .guardGate => false

/-- The number of calls of a list that are accepted, each judged in the state
the calls before it have left. -/
def acceptedCalls {σ γ : Type} (call : σ → γ → σ × List String) (accepts : σ → γ → Bool)
    (self : σ) : List γ → Nat
  | [] => 0
  | c :: cs =>
    (if accepts self c then 1 else 0) + acceptedCalls call accepts (call self c).1 cs

/-! ## Shared lemmas -/

theorem uadd_of_le (a b : Nat) (h : a + b ≤ UINT_MAX) : uadd a b = a + b := by
  unfold uadd
  exact Nat.mod_eq_of_lt (Nat.lt_succ_of_le h)

theorem uadd_le (a b : Nat) : uadd a b ≤ UINT_MAX := by
  unfold uadd
  exact Nat.le_of_lt_succ (Nat.mod_lt _ (Nat.succ_pos _))

/-- The member functions keep the numeric members within `unsigned int`: the
decrement of `energyPoints` runs only when it is positive, the subtraction of
`takeDamage` only when it cannot go below 0, and the addition of `beRepaired` is
reduced modulo `UINT_MAX + 1`. -/
theorem ClapTrap.inRange_preserved (s : ClapTrap) (t : String) (amount : Nat)
    (h : s.inRange) :
    (s.attack t).1.inRange ∧ (s.takeDamage amount).1.inRange ∧
    (s.beRepaired amount).1.inRange := by
  obtain ⟨h1, h2, h3⟩ := h
  refine ⟨?_, ?_, ?_⟩
  · unfold ClapTrap.attack
    split
    · exact ⟨h1, Nat.le_trans (Nat.sub_le _ _) h2, h3⟩
    · exact ⟨h1, h2, h3⟩
  · unfold ClapTrap.takeDamage
    split
    · exact ⟨Nat.zero_le _, h2, h3⟩
    · exact ⟨Nat.le_trans (Nat.sub_le _ _) h1, h2, h3⟩
  · unfold ClapTrap.beRepaired
    split
    · exact ⟨uadd_le _ _, Nat.le_trans (Nat.sub_le _ _) h2, h3⟩
    · exact ⟨h1, h2, h3⟩

theorem ClapTrap.operator_assign_store (mem : Store ClapTrap) (t s : Nat) :
    (ClapTrap.operator_assign mem t s).1 = Function.update mem t (mem s) := by
  unfold ClapTrap.operator_assign
  by_cases h : t = s
  · subst h
    simp
  · have hs : s ≠ t := fun e => h e.symm
    simp only [ne_eq, h, not_false_eq_true, if_true]
    funext a
    by_cases ha : a = t
    · subst ha
      simp [Function.update, hs]
    · simp [Function.update, ha]

theorem ClapTrap.ClapTrap_copy_store (mem : Store ClapTrap) (t s : Nat) (h : t ≠ s) :
    (ClapTrap.ClapTrap_copy mem t s).1 = Function.update mem t (mem s) := by
  have hs : s ≠ t := fun e => h e.symm
  unfold ClapTrap.ClapTrap_copy
  simp only [ClapTrap.operator_assign_store]
  funext a
  by_cases ha : a = t
  · subst ha
    simp [Function.update, hs]
  · simp [Function.update, ha]

theorem ScavTrap.scav_operator_assign_store (mem : Store ScavTrap) (t s : Nat) :
    (ScavTrap.operator_assign mem t s).1 = Function.update mem t (mem s) := by
  unfold ScavTrap.operator_assign
  by_cases h : t = s
  · subst h
    simp
  · simp only [ne_eq, h, not_false_eq_true, if_true, ClapTrap.operator_assign_store]
    funext a
    by_cases ha : a = t
    · subst ha
      simp [Function.update, ScavTrap.ofBases, ScavTrap.bases]
    · simp [Function.update, ha, ScavTrap.ofBases, ScavTrap.bases]

theorem ScavTrap.ScavTrap_copy_store (mem : Store ScavTrap) (t s : Nat) (h : t ≠ s) :
    (ScavTrap.ScavTrap_copy mem t s).1 = Function.update mem t (mem s) := by
  unfold ScavTrap.ScavTrap_copy
  simp only [ClapTrap.ClapTrap_copy_store _ _ _ h]
  funext a
  by_cases ha : a = t
  · subst ha
    simp [Function.update, ScavTrap.ofBases, ScavTrap.bases]
  · simp [Function.update, ha, ScavTrap.ofBases, ScavTrap.bases]

theorem ClapTrap.attack_ineligible (s : ClapTrap) (t : String)
    (h : s.energyPoints = 0 ∨ s.hitPoints = 0) : (s.attack t).1 = s := by
  have h2 : ¬ (s.energyPoints > 0 ∧ s.hitPoints > 0) := by omega
  unfold ClapTrap.attack
  simp only [h2, if_false]

theorem ClapTrap.beRepaired_ineligible_state (s : ClapTrap) (r : Nat)
    (h : s.energyPoints = 0 ∨ s.hitPoints = 0) : (s.beRepaired r).1 = s := by
  have h2 : ¬ (s.energyPoints > 0 ∧ s.hitPoints > 0) := by omega
  unfold ClapTrap.beRepaired
  simp only [h2, if_false]

theorem ClapTrap.attack_alive (s : ClapTrap) (t : String) (h : 0 < s.hitPoints) :
    (s.attack t).1 = { s with energyPoints := s.energyPoints - 1 } := by
  unfold ClapTrap.attack
  by_cases he : s.energyPoints > 0
  · simp [he, h]
  · have h0 : s.energyPoints = 0 := by omega
    simp [h0]
    cases s
    simp_all

theorem ClapTrap.attackSeq_alive (ts : List String) :
    ∀ s : ClapTrap, 0 < s.hitPoints →
      (s.attackSeq ts).1 = { s with energyPoints := s.energyPoints - ts.length } := by
  induction ts with
  | nil =>
    intro s _
    rfl
  | cons t ts ih =>
    intro s h
    have h1 : 0 < ({ s with energyPoints := s.energyPoints - 1 } : ClapTrap).hitPoints := h
    simp only [ClapTrap.attackSeq, ClapTrap.attack_alive s t h, ih _ h1, List.length_cons]
    have e : s.energyPoints - 1 - ts.length = s.energyPoints - (ts.length + 1) := by omega
    rw [e]

theorem ScavTrap.attack_base (v : ScavTrap) (t : String) :
    (v.attack t).1.toClapTrap = (v.toClapTrap.attack t).1 := by
  unfold ScavTrap.attack ClapTrap.attack
  split <;> rfl

theorem ScavTrap.attackSeq_base (ts : List String) :
    ∀ v : ScavTrap, (v.attackSeq ts).1.toClapTrap = (v.toClapTrap.attackSeq ts).1 := by
  induction ts with
  | nil =>
    intro v
    rfl
  | cons t ts ih =>
    intro v
    simp only [ScavTrap.attackSeq, ClapTrap.attackSeq, ih, ScavTrap.attack_base]

theorem ScavTrap.eq_of_base (v w : ScavTrap) (h : v.toClapTrap = w.toClapTrap) : v = w := by
  cases v
  cases w
  simp_all

theorem ClapTrap.takeDamage_lethal (s : ClapTrap) (amount : Nat) (h : s.hitPoints ≤ amount) :
    (s.takeDamage amount).1.hitPoints = 0 := by
  unfold ClapTrap.takeDamage
  simp [h]

theorem ClapTrap.damage_repair (s : ClapTrap) (d r : Nat) (hr : s.hitPoints ≤ UINT_MAX)
    (he : 0 < s.energyPoints) (h1 : r ≤ d) (h2 : d < s.hitPoints) :
    ((s.takeDamage d).1.beRepaired r).1.hitPoints = s.hitPoints - d + r ∧
    ((s.takeDamage d).1.beRepaired r).1.energyPoints + 1 = s.energyPoints := by
  have hd : ¬ d ≥ s.hitPoints := by omega
  have hs : (s.takeDamage d).1 = { s with hitPoints := s.hitPoints - d } := by
    unfold ClapTrap.takeDamage
    simp only [hd, if_false]
  have hg : s.energyPoints > 0 ∧ s.hitPoints - d > 0 := ⟨he, by omega⟩
  rw [hs]
  unfold ClapTrap.beRepaired
  simp only [hg, and_self, if_true]
  refine ⟨uadd_of_le _ _ (by omega), Nat.sub_add_cancel he⟩

theorem ScavTrap.scav_attack_ineligible (v : ScavTrap) (t : String)
    (h : v.energyPoints = 0 ∨ v.hitPoints = 0) : (v.attack t).1 = v := by
  apply ScavTrap.eq_of_base
  rw [ScavTrap.attack_base]
  exact ClapTrap.attack_ineligible _ t h

theorem ScavTrap.scav_beRepaired_ineligible_state (v : ScavTrap) (r : Nat)
    (h : v.energyPoints = 0 ∨ v.hitPoints = 0) : (v.beRepaired r).1 = v := by
  apply ScavTrap.eq_of_base
  exact ClapTrap.beRepaired_ineligible_state _ r h

theorem ScavTrap.scav_attackSeq_alive (ts : List String) (v : ScavTrap) (h : 0 < v.hitPoints) :
    (v.attackSeq ts).1.toClapTrap =
      { v.toClapTrap with energyPoints := v.energyPoints - ts.length } := by
  rw [ScavTrap.attackSeq_base]
  exact ClapTrap.attackSeq_alive ts _ h

theorem runCalls_append_state {σ γ : Type} (call : σ → γ → σ × List String) (a b : List γ) :
    ∀ s : σ, (runCalls call s (a ++ b)).1 = (runCalls call (runCalls call s a).1 b).1 := by
  induction a with
  | nil =>
    intro s
    rfl
  | cons c cs ih =>
    intro s
    exact ih (call s c).1

theorem runCalls_snoc_state {σ γ : Type} (call : σ → γ → σ × List String) (s : σ)
    (pre : List γ) (c : γ) :
    (runCalls call s (pre ++ [c])).1 = (call (runCalls call s pre).1 c).1 := by
  rw [runCalls_append_state]
  rfl

theorem runCalls_invariant {σ γ : Type} (call : σ → γ → σ × List String) (P : σ → Prop)
    (hP : ∀ s c, P s → P (call s c).1) (cs : List γ) :
    ∀ s : σ, P s → P (runCalls call s cs).1 := by
  induction cs with
  | nil =>
    intro s h
    exact h
  | cons c cs ih =>
    intro s h
    exact ih _ (hP s c h)

theorem acceptedCalls_energy {σ γ : Type} (call : σ → γ → σ × List String)
    (accepts : σ → γ → Bool) (energy : σ → Nat)
    (hstep : ∀ s c, energy (call s c).1 + (if accepts s c then 1 else 0) = energy s)
    (cs : List γ) :
    ∀ s : σ, energy (runCalls call s cs).1 + acceptedCalls call accepts s cs = energy s := by
  induction cs with
  | nil =>
    intro s
    rfl
  | cons c cs ih =>
    intro s
    have h1 := ih (call s c).1
    have h2 := hstep s c
    simp only [runCalls, acceptedCalls]
    omega

theorem ClapTrap.takeDamage_state (s : ClapTrap) (amount : Nat) :
    (s.takeDamage amount).1 = { s with hitPoints := s.hitPoints - amount } := by
  unfold ClapTrap.takeDamage
  split
  · rename_i h
    have e : s.hitPoints - amount = 0 := Nat.sub_eq_zero_of_le h
    rw [e]
  · rfl

theorem ClapTrap.call_hp_zero (s : ClapTrap) (c : ClapCall) (h : s.hitPoints = 0) :
    (s.call c).1.hitPoints = 0 := by
  cases c with
  | attack t =>
    show (s.attack t).1.hitPoints = 0
    rw [ClapTrap.attack_ineligible s t (Or.inr h)]
    exact h
  | takeDamage a =>
    show (s.takeDamage a).1.hitPoints = 0
    rw [ClapTrap.takeDamage_state]
    show s.hitPoints - a = 0
    omega
  | beRepaired a =>
    show (s.beRepaired a).1.hitPoints = 0
    rw [ClapTrap.beRepaired_ineligible_state s a (Or.inr h)]
    exact h

theorem ClapTrap.call_energy (s : ClapTrap) (c : ClapCall) :
    (s.call c).1.energyPoints + (if s.accepts c then 1 else 0) = s.energyPoints := by
  cases c with
  | attack t =>
    show (s.attack t).1.energyPoints + (if s.accepts (.attack t) then 1 else 0) = _
    unfold ClapTrap.attack ClapTrap.accepts
    by_cases h : s.energyPoints > 0 ∧ s.hitPoints > 0
    · simp only [h, and_self, if_true, decide_True]
      exact Nat.sub_add_cancel h.1
    · simp only [h, if_false, decide_False, Nat.add_zero, Bool.false_eq_true]
  | takeDamage a =>
    show (s.takeDamage a).1.energyPoints + 0 = _
    rw [ClapTrap.takeDamage_state]
    rfl
  | beRepaired a =>
    show (s.beRepaired a).1.energyPoints + (if s.accepts (.beRepaired a) then 1 else 0) = _
    unfold ClapTrap.beRepaired ClapTrap.accepts
    by_cases h : s.energyPoints > 0 ∧ s.hitPoints > 0
    · simp only [h, and_self, if_true, decide_True]
      exact Nat.sub_add_cancel h.1
    · simp only [h, if_false, decide_False, Nat.add_zero, Bool.false_eq_true]

theorem ClapTrap.call_energy_zero (s : ClapTrap) (c : ClapCall) (h : s.energyPoints = 0) :
    (s.call c).1.energyPoints = 0 := by
  have k := ClapTrap.call_energy s c
  omega

theorem ScavTrap.scav_call_hp_zero (v : ScavTrap) (c : ScavCall) (h : v.hitPoints = 0) :
    (v.call c).1.hitPoints = 0 := by
  cases c with
  | attack t =>
    show (v.attack t).1.hitPoints = 0
    rw [ScavTrap.scav_attack_ineligible v t (Or.inr h)]
    exact h
  | takeDamage a => exact ClapTrap.call_hp_zero v.toClapTrap (.takeDamage a) h
  | beRepaired a => exact ClapTrap.call_hp_zero v.toClapTrap (.beRepaired a) h
  | guardGate => exact h

theorem ScavTrap.scav_call_energy (v : ScavTrap) (c : ScavCall) :
    (v.call c).1.energyPoints + (if v.accepts c then 1 else 0) = v.energyPoints := by
  cases c with
  | attack t =>
    show (v.attack t).1.toClapTrap.energyPoints + _ = _
    rw [ScavTrap.attack_base]
    exact ClapTrap.call_energy v.toClapTrap (.attack t)
  | takeDamage a => exact ClapTrap.call_energy v.toClapTrap (.takeDamage a)
  | beRepaired a => exact ClapTrap.call_energy v.toClapTrap (.beRepaired a)
  | guardGate => rfl

theorem ScavTrap.scav_call_energy_zero (v : ScavTrap) (c : ScavCall)
    (h : v.energyPoints = 0) : (v.call c).1.energyPoints = 0 := by
  have k := ScavTrap.scav_call_energy v c
  omega

/-! ## takeDamage -/

/-- C1. `ClapTrap::takeDamage`, also when called on a `ScavTrap`: if
`amount >= hitPoints` then `hitPoints` becomes 0, otherwise it becomes
`hitPoints - amount` without wrapping (the new value plus `amount` is the old
value); this is so for every value of `energyPoints`, which is left unchanged. -/
theorem takeDamage_spec (s : ClapTrap) (v : ScavTrap) (amount : Nat) :
    (s.hitPoints ≤ amount → (s.takeDamage amount).1.hitPoints = 0) ∧
    (amount < s.hitPoints →
      (s.takeDamage amount).1.hitPoints = s.hitPoints - amount ∧
      (s.takeDamage amount).1.hitPoints + amount = s.hitPoints) ∧
    (s.takeDamage amount).1.energyPoints = s.energyPoints ∧
    (v.hitPoints ≤ amount → (v.takeDamage amount).1.hitPoints = 0) ∧
    (amount < v.hitPoints →
      (v.takeDamage amount).1.hitPoints = v.hitPoints - amount ∧
      (v.takeDamage amount).1.hitPoints + amount = v.hitPoints) ∧
    (v.takeDamage amount).1.energyPoints = v.energyPoints := by
  unfold ScavTrap.takeDamage ClapTrap.takeDamage
  refine ⟨?_, ?_, ?_, ?_, ?_, ?_⟩
  · intro h
    simp [h]
  · intro h
    have h2 : ¬ amount ≥ s.hitPoints := by omega
    simp only [h2, if_false, true_and]
    exact Nat.sub_add_cancel (Nat.le_of_lt h)
  · split <;> rfl
  · intro h
    simp [h]
  · intro h
    have h2 : ¬ amount ≥ v.hitPoints := by omega
    simp only [h2, if_false, true_and]
    exact Nat.sub_add_cancel (Nat.le_of_lt h)
  · dsimp only
    split <;> rfl

/-- C1, at the calls of the `main` functions: `takeDamage(15)` on a new `ClapTrap`
(10 hit points) leaves 0, and `takeDamage(50)` on a new `ScavTrap` (100 hit
points) leaves 50. -/
theorem takeDamage_spec_witness :
    ((ClapTrap.ClapTrap_named "HP-TEST").1.takeDamage 15).1.hitPoints = 0 ∧
    ((ScavTrap.ScavTrap_named "SC4V-TP").1.takeDamage 50).1.hitPoints = 50 :=
  ⟨(takeDamage_spec (ClapTrap.ClapTrap_named "HP-TEST").1
      (ScavTrap.ScavTrap_named "SC4V-TP").1 15).1 (by decide),
   ((takeDamage_spec (ClapTrap.ClapTrap_named "HP-TEST").1
      (ScavTrap.ScavTrap_named "SC4V-TP").1 50).2.2.2.2.1 (by decide)).1⟩

/-! ## attack -/

/-- C2. `ClapTrap::attack`: if `energyPoints > 0` and `hitPoints > 0` then
`energyPoints` decreases by exactly 1 and `hitPoints` is unchanged; if
`energyPoints == 0` or `hitPoints == 0` the whole state is unchanged. -/
theorem attack_spec (s : ClapTrap) (target : String) :
    (0 < s.energyPoints ∧ 0 < s.hitPoints →
      (s.attack target).1.energyPoints + 1 = s.energyPoints ∧
      (s.attack target).1.energyPoints = s.energyPoints - 1 ∧
      (s.attack target).1.hitPoints = s.hitPoints) ∧
    (s.energyPoints = 0 ∨ s.hitPoints = 0 → (s.attack target).1 = s) := by
  unfold ClapTrap.attack
  constructor
  · intro h
    have h2 : s.energyPoints > 0 ∧ s.hitPoints > 0 := h
    simp only [h2, and_self, if_true, and_true]
    exact Nat.sub_add_cancel h.1
  · intro h
    have h2 : ¬ (s.energyPoints > 0 ∧ s.hitPoints > 0) := by omega
    simp only [h2, if_false]

/-- C2, at the first call of `src/ex00/main.cpp` and on an exhausted unit: a new
`ClapTrap` has 9 energy points and 10 hit points after one attack, and a unit
without energy is left as it is. -/
theorem attack_spec_witness :
    ((ClapTrap.ClapTrap_named "CLAP-01").1.attack "target dummy").1.energyPoints = 9 ∧
    ((ClapTrap.ClapTrap_named "CLAP-01").1.attack "target dummy").1.hitPoints = 10 ∧
    (ClapTrap.attack ⟨"ENERGY-TEST", 10, 0, 0⟩ "target").1 = ⟨"ENERGY-TEST", 10, 0, 0⟩ :=
  ⟨((attack_spec (ClapTrap.ClapTrap_named "CLAP-01").1 "target dummy").1
      ⟨by decide, by decide⟩).2.1,
   ((attack_spec (ClapTrap.ClapTrap_named "CLAP-01").1 "target dummy").1
      ⟨by decide, by decide⟩).2.2,
   (attack_spec ⟨"ENERGY-TEST", 10, 0, 0⟩ "target").2 (Or.inl rfl)⟩

/-! ## beRepaired -/

/-- C3, as stated, fails: a new `ClapTrap` (10 hit points, 10 energy points) is
eligible, `4294967295` is an `unsigned int`, and `beRepaired(4294967295)` leaves
9 hit points, not `10 + 4294967295`. -/
theorem beRepaired_wraps :
    (ClapTrap.ClapTrap_named "CLAP-02").1.inRange ∧
    0 < (ClapTrap.ClapTrap_named "CLAP-02").1.energyPoints ∧
    0 < (ClapTrap.ClapTrap_named "CLAP-02").1.hitPoints ∧
    4294967295 ≤ UINT_MAX ∧
    ((ClapTrap.ClapTrap_named "CLAP-02").1.beRepaired 4294967295).1.hitPoints = 9 ∧
    ((ClapTrap.ClapTrap_named "CLAP-02").1.beRepaired 4294967295).1.hitPoints ≠
      (ClapTrap.ClapTrap_named "CLAP-02").1.hitPoints + 4294967295 := by
  decide

/-- C3, amended. `ClapTrap::beRepaired` on a state with `energyPoints > 0` and
`hitPoints > 0`: `hitPoints` after the call is `hitPoints + amount` reduced
modulo `UINT_MAX + 1`, which is exactly `hitPoints + amount` whenever that sum
is at most `UINT_MAX`, and `energyPoints` decreases by exactly 1. -/
theorem beRepaired_spec (s : ClapTrap) (amount : Nat)
    (he : 0 < s.energyPoints) (hh : 0 < s.hitPoints) :
    (s.beRepaired amount).1.hitPoints = (s.hitPoints + amount) % (UINT_MAX + 1) ∧
    (s.hitPoints + amount ≤ UINT_MAX →
      (s.beRepaired amount).1.hitPoints = s.hitPoints + amount) ∧
    (s.beRepaired amount).1.energyPoints + 1 = s.energyPoints ∧
    (s.beRepaired amount).1.energyPoints = s.energyPoints - 1 := by
  have h2 : s.energyPoints > 0 ∧ s.hitPoints > 0 := ⟨he, hh⟩
  unfold ClapTrap.beRepaired
  simp only [h2, and_self, if_true]
  refine ⟨rfl, fun h => uadd_of_le _ _ h, Nat.sub_add_cancel he, trivial⟩

/-- C3, amended, at the calls of `src/ex00/main.cpp`: after `takeDamage(5)` a new
`ClapTrap` has 5 hit points, and `beRepaired(3)` gives 8 hit points and 9 energy
points. -/
theorem beRepaired_spec_witness :
    (((ClapTrap.ClapTrap_named "CLAP-02").1.takeDamage 5).1.beRepaired 3).1.hitPoints = 8 ∧
    (((ClapTrap.ClapTrap_named "CLAP-02").1.takeDamage 5).1.beRepaired 3).1.energyPoints = 9 :=
  ⟨(beRepaired_spec ((ClapTrap.ClapTrap_named "CLAP-02").1.takeDamage 5).1 3
      (by decide) (by decide)).2.1 (by decide),
   (beRepaired_spec ((ClapTrap.ClapTrap_named "CLAP-02").1.takeDamage 5).1 3
      (by decide) (by decide)).2.2.2⟩

/-- C4. `ClapTrap::beRepaired` on a state with `energyPoints == 0` or
`hitPoints == 0`: the call returns, all four members are as before, and the only
output is the line saying that the unit cannot be repaired. -/
theorem beRepaired_ineligible (s : ClapTrap) (amount : Nat)
    (h : s.energyPoints = 0 ∨ s.hitPoints = 0) :
    s.beRepaired amount = (s, ["ClapTrap " ++ s.name ++ " cannot be repaired!"]) ∧
    (s.beRepaired amount).1.name = s.name ∧
    (s.beRepaired amount).1.hitPoints = s.hitPoints ∧
    (s.beRepaired amount).1.energyPoints = s.energyPoints ∧
    (s.beRepaired amount).1.attackDamage = s.attackDamage := by
  have h2 : ¬ (s.energyPoints > 0 ∧ s.hitPoints > 0) := by omega
  unfold ClapTrap.beRepaired
  simp only [h2, if_false, and_self]

/-- C4, at the states of `src/ex00/main.cpp`: `beRepaired(1)` changes nothing on
a unit without energy, nor on a unit without hit points. -/
theorem beRepaired_ineligible_witness :
    (ClapTrap.beRepaired ⟨"ENERGY-TEST", 10, 0, 0⟩ 1).1.hitPoints = 10 ∧
    (ClapTrap.beRepaired ⟨"HP-TEST", 0, 10, 0⟩ 1).1.energyPoints = 10 :=
  ⟨(beRepaired_ineligible ⟨"ENERGY-TEST", 10, 0, 0⟩ 1 (Or.inl rfl)).2.2.1,
   (beRepaired_ineligible ⟨"HP-TEST", 0, 10, 0⟩ 1 (Or.inr rfl)).2.2.2.1⟩

/-! ## Construction and copy -/

/-- C5. Construction gives the fixed profile of the class: `ClapTrap(n)` has name
`n` and 10 / 10 / 0, `ScavTrap(n)` has name `n` and 100 / 50 / 20, and the default
constructors give the same numbers with the name `"Default"`. -/
theorem constructors_spec (n : String) :
    (ClapTrap.ClapTrap_named n).1 =
      { name := n, hitPoints := 10, energyPoints := 10, attackDamage := 0 } ∧
    (ScavTrap.ScavTrap_named n).1.toClapTrap =
      { name := n, hitPoints := 100, energyPoints := 50, attackDamage := 20 } ∧
    ClapTrap.ClapTrap_default.1 =
      { name := "Default", hitPoints := 10, energyPoints := 10, attackDamage := 0 } ∧
    ScavTrap.ScavTrap_default.1.toClapTrap =
      { name := "Default", hitPoints := 100, energyPoints := 50, attackDamage := 20 } :=
  ⟨rfl, rfl, rfl, rfl⟩

/-- C6. Copy assignment and copy construction, for `ClapTrap` and for `ScavTrap`,
over a store of objects with the target at address `t` and the source at address
`s`: afterwards the target equals the source in all four members, the source and
every other object are as before, and assigning an object to itself leaves the
store as it was. Copy construction builds a new object, so `t` and `s` differ. -/
theorem copy_spec (mem : Store ClapTrap) (vmem : Store ScavTrap) (t s : Nat) :
    ((ClapTrap.operator_assign mem t s).1 t = mem s ∧
     (ClapTrap.operator_assign mem t s).1 s = mem s ∧
     (∀ a, a ≠ t → (ClapTrap.operator_assign mem t s).1 a = mem a) ∧
     (ClapTrap.operator_assign mem t t).1 = mem) ∧
    (t ≠ s →
     (ClapTrap.ClapTrap_copy mem t s).1 t = mem s ∧
     (ClapTrap.ClapTrap_copy mem t s).1 s = mem s ∧
     (∀ a, a ≠ t → (ClapTrap.ClapTrap_copy mem t s).1 a = mem a)) ∧
    ((ScavTrap.operator_assign vmem t s).1 t = vmem s ∧
     (ScavTrap.operator_assign vmem t s).1 s = vmem s ∧
     (∀ a, a ≠ t → (ScavTrap.operator_assign vmem t s).1 a = vmem a) ∧
     (ScavTrap.operator_assign vmem t t).1 = vmem) ∧
    (t ≠ s →
     (ScavTrap.ScavTrap_copy vmem t s).1 t = vmem s ∧
     (ScavTrap.ScavTrap_copy vmem t s).1 s = vmem s ∧
     (∀ a, a ≠ t → (ScavTrap.ScavTrap_copy vmem t s).1 a = vmem a)) := by
  have key : ∀ (α : Type) (m : Store α), Function.update m t (m s) s = m s := by
    intro α m
    by_cases h : s = t
    · subst h
      simp
    · simp [Function.update, h]
  refine ⟨⟨?_, ?_, ?_, ?_⟩, ?_, ⟨?_, ?_, ?_, ?_⟩, ?_⟩
  · simp [ClapTrap.operator_assign_store]
  · rw [ClapTrap.operator_assign_store]
    exact key _ mem
  · intro a ha
    simp [ClapTrap.operator_assign_store, Function.update, ha]
  · simp [ClapTrap.operator_assign_store]
  · intro h
    rw [ClapTrap.ClapTrap_copy_store mem t s h]
    refine ⟨by simp, key _ mem, ?_⟩
    intro a ha
    simp [Function.update, ha]
  · simp [ScavTrap.scav_operator_assign_store]
  · rw [ScavTrap.scav_operator_assign_store]
    exact key _ vmem
  · intro a ha
    simp [ScavTrap.scav_operator_assign_store, Function.update, ha]
  · simp [ScavTrap.scav_operator_assign_store]
  · intro h
    rw [ScavTrap.ScavTrap_copy_store vmem t s h]
    refine ⟨by simp, key _ vmem, ?_⟩
    intro a ha
    simp [Function.update, ha]

/-- C6, at the copies of `src/ex01/main.cpp`: with `guardian` (one attack made,
49 energy points) at address 0, the object built at address 1 as a copy of it,
and the object at address 1 after `assigned = guardian`, both equal `guardian`,
for both classes. -/
theorem copy_spec_witness :
    (ClapTrap.ClapTrap_copy
      (fun a => if a = 0 then ⟨"GUARDIAN", 100, 49, 20⟩ else ⟨"ASSIGNED", 100, 50, 20⟩)
      1 0).1 1 = ⟨"GUARDIAN", 100, 49, 20⟩ ∧
    (ScavTrap.ScavTrap_copy
      (fun a => if a = 0 then ⟨⟨"GUARDIAN", 100, 49, 20⟩⟩ else ⟨⟨"ASSIGNED", 100, 50, 20⟩⟩)
      1 0).1 1 = ⟨⟨"GUARDIAN", 100, 49, 20⟩⟩ ∧
    (ScavTrap.operator_assign
      (fun a => if a = 0 then ⟨⟨"GUARDIAN", 100, 49, 20⟩⟩ else ⟨⟨"ASSIGNED", 100, 50, 20⟩⟩)
      1 0).1 1 = ⟨⟨"GUARDIAN", 100, 49, 20⟩⟩ :=
  ⟨((copy_spec
      (fun a => if a = 0 then ⟨"GUARDIAN", 100, 49, 20⟩ else ⟨"ASSIGNED", 100, 50, 20⟩)
      (fun a => if a = 0 then ⟨⟨"GUARDIAN", 100, 49, 20⟩⟩ else ⟨⟨"ASSIGNED", 100, 50, 20⟩⟩)
      1 0).2.1 (by decide)).1,
   ((copy_spec
      (fun a => if a = 0 then ⟨"GUARDIAN", 100, 49, 20⟩ else ⟨"ASSIGNED", 100, 50, 20⟩)
      (fun a => if a = 0 then ⟨⟨"GUARDIAN", 100, 49, 20⟩⟩ else ⟨⟨"ASSIGNED", 100, 50, 20⟩⟩)
      1 0).2.2.2 (by decide)).1,
   (copy_spec
      (fun a => if a = 0 then ⟨"GUARDIAN", 100, 49, 20⟩ else ⟨"ASSIGNED", 100, 50, 20⟩)
      (fun a => if a = 0 then ⟨⟨"GUARDIAN", 100, 49, 20⟩⟩ else ⟨⟨"ASSIGNED", 100, 50, 20⟩⟩)
      1 0).2.2.1.1⟩

/-! ## ScavTrap::attack against ClapTrap::attack -/

/-- C7. `ScavTrap::attack` and `ClapTrap::attack` have the same effect on the
state: from the same four members and for the same target, the members after
`ScavTrap::attack` are those after `ClapTrap::attack`; the lines the two write
always differ. -/
theorem attack_refines (v : ScavTrap) (target : String) :
    (v.attack target).1.toClapTrap = (v.toClapTrap.attack target).1 ∧
    (v.attack target).2 ≠ (v.toClapTrap.attack target).2 := by
  refine ⟨ScavTrap.attack_base v target, ?_⟩
  unfold ScavTrap.attack ClapTrap.attack
  intro h
  split at h <;>
  · simp only [List.cons.injEq, and_true] at h
    have h2 := congrArg String.data h
    simp only [String.data_append, List.append_assoc] at h2
    have h3 := congrArg List.head? h2
    simp at h3

/-! ## Scenarios -/

/-- C8. Energy exhaustion by repeated attack, for a state `s` with
`hitPoints > 0` taken as a `ClapTrap` and as the `ScavTrap` with these members:
after the attacks on `targets` (n of them) `energyPoints` is `e - n`, cut off at
0: it is `e - n` when `n <= e` and 0 when `n >= e`; `hitPoints` is unchanged after
every number `k` of the attacks; and once `n >= e` every further `attack` and
`beRepaired` leaves the state unchanged. -/
theorem energy_exhaustion (s : ClapTrap) (targets : List String) (h : 0 < s.hitPoints) :
    ((s.attackSeq targets).1.energyPoints = s.energyPoints - targets.length ∧
     (targets.length ≤ s.energyPoints →
       (s.attackSeq targets).1.energyPoints + targets.length = s.energyPoints) ∧
     (s.energyPoints ≤ targets.length →
       (s.attackSeq targets).1.energyPoints = 0 ∧
       (∀ t, ((s.attackSeq targets).1.attack t).1 = (s.attackSeq targets).1) ∧
       (∀ r, ((s.attackSeq targets).1.beRepaired r).1 = (s.attackSeq targets).1)) ∧
     (∀ k, (s.attackSeq (targets.take k)).1.hitPoints = s.hitPoints)) ∧
    (((ScavTrap.mk s).attackSeq targets).1.energyPoints = s.energyPoints - targets.length ∧
     (targets.length ≤ s.energyPoints →
       ((ScavTrap.mk s).attackSeq targets).1.energyPoints + targets.length = s.energyPoints) ∧
     (s.energyPoints ≤ targets.length →
       ((ScavTrap.mk s).attackSeq targets).1.energyPoints = 0 ∧
       (∀ t, (((ScavTrap.mk s).attackSeq targets).1.attack t).1 =
         ((ScavTrap.mk s).attackSeq targets).1) ∧
       (∀ r, (((ScavTrap.mk s).attackSeq targets).1.beRepaired r).1 =
         ((ScavTrap.mk s).attackSeq targets).1)) ∧
     (∀ k, ((ScavTrap.mk s).attackSeq (targets.take k)).1.hitPoints = s.hitPoints)) := by
  have hc : (s.attackSeq targets).1.energyPoints = s.energyPoints - targets.length := by
    rw [ClapTrap.attackSeq_alive targets s h]
  have hv : ((ScavTrap.mk s).attackSeq targets).1.energyPoints =
      s.energyPoints - targets.length := by
    show ((ScavTrap.mk s).attackSeq targets).1.toClapTrap.energyPoints = _
    rw [ScavTrap.scav_attackSeq_alive targets (ScavTrap.mk s) h]
  refine ⟨⟨hc, ?_, ?_, ?_⟩, hv, ?_, ?_, ?_⟩
  · intro hn
    omega
  · intro hn
    have h0 : (s.attackSeq targets).1.energyPoints = 0 := by omega
    exact ⟨h0, fun t => ClapTrap.attack_ineligible _ t (Or.inl h0),
      fun r => ClapTrap.beRepaired_ineligible_state _ r (Or.inl h0)⟩
  · intro k
    rw [ClapTrap.attackSeq_alive (targets.take k) s h]
  · intro hn
    omega
  · intro hn
    have h0 : ((ScavTrap.mk s).attackSeq targets).1.energyPoints = 0 := by omega
    exact ⟨h0, fun t => ScavTrap.scav_attack_ineligible _ t (Or.inl h0),
      fun r => ScavTrap.scav_beRepaired_ineligible_state _ r (Or.inl h0)⟩
  · intro k
    show ((ScavTrap.mk s).attackSeq (targets.take k)).1.toClapTrap.hitPoints = _
    rw [ScavTrap.scav_attackSeq_alive (targets.take k) (ScavTrap.mk s) h]

set_option maxRecDepth 4096 in
/-- C8, at the loops of the `main` functions: a new `ClapTrap` has 0 energy points
after 10 attacks and the 11th attack changes nothing; a new `ScavTrap` has 0
energy points after 51 attacks. -/
theorem energy_exhaustion_witness :
    ((ClapTrap.ClapTrap_named "ENERGY-TEST").1.attackSeq
      (List.replicate 10 "target")).1.energyPoints = 0 ∧
    (((ClapTrap.ClapTrap_named "ENERGY-TEST").1.attackSeq
      (List.replicate 10 "target")).1.attack "target").1 =
      ((ClapTrap.ClapTrap_named "ENERGY-TEST").1.attackSeq (List.replicate 10 "target")).1 ∧
    ((ScavTrap.ScavTrap_named "ENERGY-TEST").1.attackSeq
      (List.replicate 51 "dummy")).1.energyPoints = 0 :=
  ⟨((energy_exhaustion (ClapTrap.ClapTrap_named "ENERGY-TEST").1
      (List.replicate 10 "target") (by decide)).1.2.2.1 (by decide)).1,
   ((energy_exhaustion (ClapTrap.ClapTrap_named "ENERGY-TEST").1
      (List.replicate 10 "target") (by decide)).1.2.2.1 (by decide)).2.1 "target",
   ((energy_exhaustion (ScavTrap.ScavTrap_named "ENERGY-TEST").1.toClapTrap
      (List.replicate 51 "dummy") (by decide)).2.2.2.1
      (by rw [List.length_replicate]; decide)).1⟩

/-- C9. Lethal damage disables attack and repair, for a state `s` taken as a
`ClapTrap` and as the `ScavTrap` with these members: after `takeDamage(amount)`
with `amount >= hitPoints`, `hitPoints` is 0 and every later `attack` or
`beRepaired` leaves the whole state unchanged; `ScavTrap::guardGate` still
returns, writes its line and leaves the state unchanged. -/
theorem lethal_damage (s : ClapTrap) (amount : Nat) (h : s.hitPoints ≤ amount) :
    ((s.takeDamage amount).1.hitPoints = 0 ∧
     (∀ t, ((s.takeDamage amount).1.attack t).1 = (s.takeDamage amount).1) ∧
     (∀ r, ((s.takeDamage amount).1.beRepaired r).1 = (s.takeDamage amount).1)) ∧
    (((ScavTrap.mk s).takeDamage amount).1.hitPoints = 0 ∧
     (∀ t, (((ScavTrap.mk s).takeDamage amount).1.attack t).1 =
       ((ScavTrap.mk s).takeDamage amount).1) ∧
     (∀ r, (((ScavTrap.mk s).takeDamage amount).1.beRepaired r).1 =
       ((ScavTrap.mk s).takeDamage amount).1) ∧
     ((ScavTrap.mk s).takeDamage amount).1.guardGate =
       (((ScavTrap.mk s).takeDamage amount).1,
        ["ScavTrap " ++ s.name ++ " is now in Gate keeper mode."])) := by
  have h0 : (s.takeDamage amount).1.hitPoints = 0 := ClapTrap.takeDamage_lethal s amount h
  have v0 : ((ScavTrap.mk s).takeDamage amount).1.hitPoints = 0 := h0
  refine ⟨⟨h0, fun t => ClapTrap.attack_ineligible _ t (Or.inr h0),
      fun r => ClapTrap.beRepaired_ineligible_state _ r (Or.inr h0)⟩,
    v0, fun t => ScavTrap.scav_attack_ineligible _ t (Or.inr v0),
      fun r => ScavTrap.scav_beRepaired_ineligible_state _ r (Or.inr v0), ?_⟩
  unfold ScavTrap.guardGate ScavTrap.takeDamage ClapTrap.takeDamage
  split <;> rfl

/-- C9, at the scenarios: a new `ClapTrap` (10 hit points) after `takeDamage(15)`
has 0 hit points and `attack` and `beRepaired(1)` change nothing; a new `ScavTrap`
(100 / 50) after `takeDamage(150)` has 0 hit points, `attack` changes nothing,
and `guardGate` writes its line and changes nothing. -/
theorem lethal_damage_witness :
    ((ClapTrap.ClapTrap_named "HP-TEST").1.takeDamage 15).1.hitPoints = 0 ∧
    (((ClapTrap.ClapTrap_named "HP-TEST").1.takeDamage 15).1.attack "target").1 =
      ((ClapTrap.ClapTrap_named "HP-TEST").1.takeDamage 15).1 ∧
    (((ClapTrap.ClapTrap_named "HP-TEST").1.takeDamage 15).1.beRepaired 1).1 =
      ((ClapTrap.ClapTrap_named "HP-TEST").1.takeDamage 15).1 ∧
    ((ScavTrap.ScavTrap_named "SC4V-TP").1.takeDamage 150).1.hitPoints = 0 ∧
    (((ScavTrap.ScavTrap_named "SC4V-TP").1.takeDamage 150).1.attack "enemy robot").1 =
      ((ScavTrap.ScavTrap_named "SC4V-TP").1.takeDamage 150).1 ∧
    ((ScavTrap.ScavTrap_named "SC4V-TP").1.takeDamage 150).1.guardGate =
      (((ScavTrap.ScavTrap_named "SC4V-TP").1.takeDamage 150).1,
       ["ScavTrap SC4V-TP is now in Gate keeper mode."]) :=
  ⟨(lethal_damage (ClapTrap.ClapTrap_named "HP-TEST").1 15 (by decide)).1.1,
   (lethal_damage (ClapTrap.ClapTrap_named "HP-TEST").1 15 (by decide)).1.2.1 "target",
   (lethal_damage (ClapTrap.ClapTrap_named "HP-TEST").1 15 (by decide)).1.2.2 1,
   (lethal_damage (ScavTrap.ScavTrap_named "SC4V-TP").1.toClapTrap 150 (by decide)).2.1,
   (lethal_damage (ScavTrap.ScavTrap_named "SC4V-TP").1.toClapTrap 150
      (by decide)).2.2.1 "enemy robot",
   (lethal_damage (ScavTrap.ScavTrap_named "SC4V-TP").1.toClapTrap 150 (by decide)).2.2.2.2⟩

/-- C10. Damage followed by repair, for a state `s` whose `hitPoints` is an
`unsigned int` value, with `energyPoints > 0` and `r <= d < hitPoints`, taken as
a `ClapTrap` and as the `ScavTrap` with these members: `takeDamage(d)` then
`beRepaired(r)` gives `hitPoints == hitPoints_before - d + r` and
`energyPoints == energyPoints_before - 1`. -/
theorem damage_then_repair (s : ClapTrap) (d r : Nat) (hr : s.hitPoints ≤ UINT_MAX)
    (he : 0 < s.energyPoints) (h1 : r ≤ d) (h2 : d < s.hitPoints) :
    (((s.takeDamage d).1.beRepaired r).1.hitPoints = s.hitPoints - d + r ∧
     ((s.takeDamage d).1.beRepaired r).1.energyPoints + 1 = s.energyPoints ∧
     ((s.takeDamage d).1.beRepaired r).1.energyPoints = s.energyPoints - 1) ∧
    ((((ScavTrap.mk s).takeDamage d).1.beRepaired r).1.hitPoints = s.hitPoints - d + r ∧
     (((ScavTrap.mk s).takeDamage d).1.beRepaired r).1.energyPoints + 1 = s.energyPoints ∧
     (((ScavTrap.mk s).takeDamage d).1.beRepaired r).1.energyPoints = s.energyPoints - 1) := by
  have k := ClapTrap.damage_repair s d r hr he h1 h2
  have e : ((s.takeDamage d).1.beRepaired r).1.energyPoints = s.energyPoints - 1 := by
    have := k.2
    omega
  exact ⟨⟨k.1, k.2, e⟩, k.1, k.2, e⟩

/-- C10, at the scenarios: from 100 hit points `takeDamage(30)` then
`beRepaired(20)` gives 90; the `ScavTrap` of `src/ex01/main.cpp`, after its first
attack (100 hit points, 49 energy points), `takeDamage(50)` and `beRepaired(20)`,
has 70 hit points and 48 energy points. -/
theorem damage_then_repair_witness :
    ((ClapTrap.takeDamage ⟨"FR4G-TP", 100, 99, 30⟩ 30).1.beRepaired 20).1.hitPoints = 90 ∧
    ((ClapTrap.takeDamage ⟨"FR4G-TP", 100, 99, 30⟩ 30).1.beRepaired 20).1.energyPoints = 98 ∧
    (((((ScavTrap.ScavTrap_named "SC4V-TP").1.attack "enemy robot").1.takeDamage 50).1
      ).beRepaired 20).1.hitPoints = 70 ∧
    (((((ScavTrap.ScavTrap_named "SC4V-TP").1.attack "enemy robot").1.takeDamage 50).1
      ).beRepaired 20).1.energyPoints = 48 :=
  ⟨(damage_then_repair ⟨"FR4G-TP", 100, 99, 30⟩ 30 20
      (by decide) (by decide) (by decide) (by decide)).1.1,
   (damage_then_repair ⟨"FR4G-TP", 100, 99, 30⟩ 30 20
      (by decide) (by decide) (by decide) (by decide)).1.2.2,
   (damage_then_repair ((ScavTrap.ScavTrap_named "SC4V-TP").1.attack "enemy robot").1.toClapTrap
      50 20 (by decide) (by decide) (by decide) (by decide)).2.1,
   (damage_then_repair ((ScavTrap.ScavTrap_named "SC4V-TP").1.attack "enemy robot").1.toClapTrap
      50 20 (by decide) (by decide) (by decide) (by decide)).2.2.2⟩

/-! ## guardGate and the frame of every action -/

/-- C11. `ScavTrap::guardGate` is unconditional and stateless: in every state,
also with `hitPoints == 0` or `energyPoints == 0`, the call returns, writes its
one line, and leaves `name`, `hitPoints`, `energyPoints` and `attackDamage`
unchanged. -/
theorem guardGate_spec (v : ScavTrap) :
    v.guardGate = (v, ["ScavTrap " ++ v.name ++ " is now in Gate keeper mode."]) ∧
    v.guardGate.1.name = v.name ∧
    v.guardGate.1.hitPoints = v.hitPoints ∧
    v.guardGate.1.energyPoints = v.energyPoints ∧
    v.guardGate.1.attackDamage = v.attackDamage :=
  ⟨rfl, rfl, rfl, rfl, rfl⟩

/-- C13. The actions never touch `name` or `attackDamage`: each of
`ClapTrap::attack`, `ClapTrap::takeDamage`, `ClapTrap::beRepaired`,
`ScavTrap::attack` and `ScavTrap::guardGate` leaves both as they were; moreover
`takeDamage` leaves `energyPoints` unchanged and both `attack` functions leave
`hitPoints` unchanged. -/
theorem actions_frame (s : ClapTrap) (v : ScavTrap) (target : String) (amount : Nat) :
    ((s.attack target).1.name = s.name ∧
     (s.attack target).1.attackDamage = s.attackDamage ∧
     (s.attack target).1.hitPoints = s.hitPoints) ∧
    ((s.takeDamage amount).1.name = s.name ∧
     (s.takeDamage amount).1.attackDamage = s.attackDamage ∧
     (s.takeDamage amount).1.energyPoints = s.energyPoints) ∧
    ((s.beRepaired amount).1.name = s.name ∧
     (s.beRepaired amount).1.attackDamage = s.attackDamage) ∧
    ((v.attack target).1.name = v.name ∧
     (v.attack target).1.attackDamage = v.attackDamage ∧
     (v.attack target).1.hitPoints = v.hitPoints) ∧
    (v.guardGate.1.name = v.name ∧
     v.guardGate.1.attackDamage = v.attackDamage) := by
  refine ⟨?_, ?_, ?_, ?_, ⟨rfl, rfl⟩⟩
  · unfold ClapTrap.attack
    split <;> exact ⟨rfl, rfl, rfl⟩
  · unfold ClapTrap.takeDamage
    split <;> exact ⟨rfl, rfl, rfl⟩
  · unfold ClapTrap.beRepaired
    split <;> exact ⟨rfl, rfl⟩
  · unfold ScavTrap.attack
    split <;> exact ⟨rfl, rfl, rfl⟩

/-! ## Sequences of calls: terminal states and energy accounting -/

/-- C12. Zero health and zero energy are terminal, for a state `s` taken as a
`ClapTrap` and as the `ScavTrap` with these members, and for every list of calls
(`attack`, `takeDamage`, `beRepaired`, and `guardGate` on a `ScavTrap`, with any
arguments): if `hitPoints == 0` at the start it is 0 after the whole list, if
`energyPoints == 0` at the start it is 0 after the whole list, and in both cases
every `attack` and `beRepaired` (and `guardGate`) of the list leaves the state
unchanged, while every `takeDamage(a)` has its usual effect: `hitPoints` becomes
`hitPoints - a`, cut off at 0, and nothing else changes. -/
theorem terminal_states (s : ClapTrap) (cs : List ClapCall) (vs : List ScavCall)
    (h : s.hitPoints = 0 ∨ s.energyPoints = 0) :
    ((s.hitPoints = 0 → (runCalls ClapTrap.call s cs).1.hitPoints = 0) ∧
     (s.energyPoints = 0 → (runCalls ClapTrap.call s cs).1.energyPoints = 0) ∧
     (∀ pre c post, cs = pre ++ c :: post →
       (∀ t, c = .attack t →
         (runCalls ClapTrap.call s (pre ++ [c])).1 = (runCalls ClapTrap.call s pre).1) ∧
       (∀ a, c = .beRepaired a →
         (runCalls ClapTrap.call s (pre ++ [c])).1 = (runCalls ClapTrap.call s pre).1) ∧
       (∀ a, c = .takeDamage a →
         (runCalls ClapTrap.call s (pre ++ [c])).1 =
           { (runCalls ClapTrap.call s pre).1 with
             hitPoints := (runCalls ClapTrap.call s pre).1.hitPoints - a }))) ∧
    ((s.hitPoints = 0 → (runCalls ScavTrap.call (ScavTrap.mk s) vs).1.hitPoints = 0) ∧
     (s.energyPoints = 0 → (runCalls ScavTrap.call (ScavTrap.mk s) vs).1.energyPoints = 0) ∧
     (∀ pre c post, vs = pre ++ c :: post →
       (∀ t, c = .attack t →
         (runCalls ScavTrap.call (ScavTrap.mk s) (pre ++ [c])).1 =
           (runCalls ScavTrap.call (ScavTrap.mk s) pre).1) ∧
       (∀ a, c = .beRepaired a →
         (runCalls ScavTrap.call (ScavTrap.mk s) (pre ++ [c])).1 =
           (runCalls ScavTrap.call (ScavTrap.mk s) pre).1) ∧
       (c = .guardGate →
         (runCalls ScavTrap.call (ScavTrap.mk s) (pre ++ [c])).1 =
           (runCalls ScavTrap.call (ScavTrap.mk s) pre).1) ∧
       (∀ a, c = .takeDamage a →
         (runCalls ScavTrap.call (ScavTrap.mk s) (pre ++ [c])).1.toClapTrap =
           { (runCalls ScavTrap.call (ScavTrap.mk s) pre).1.toClapTrap with
             hitPoints := (runCalls ScavTrap.call (ScavTrap.mk s) pre).1.hitPoints - a }))) := by
  have hc : ∀ pre : List ClapCall,
      (runCalls ClapTrap.call s pre).1.hitPoints = 0 ∨
      (runCalls ClapTrap.call s pre).1.energyPoints = 0 := fun pre =>
    runCalls_invariant ClapTrap.call (fun x => x.hitPoints = 0 ∨ x.energyPoints = 0)
      (fun x c hx => hx.imp (ClapTrap.call_hp_zero x c) (ClapTrap.call_energy_zero x c)) pre s h
  have hv : ∀ pre : List ScavCall,
      (runCalls ScavTrap.call (ScavTrap.mk s) pre).1.hitPoints = 0 ∨
      (runCalls ScavTrap.call (ScavTrap.mk s) pre).1.energyPoints = 0 := fun pre =>
    runCalls_invariant ScavTrap.call (fun x => x.hitPoints = 0 ∨ x.energyPoints = 0)
      (fun x c hx =>
        hx.imp (ScavTrap.scav_call_hp_zero x c) (ScavTrap.scav_call_energy_zero x c))
      pre (ScavTrap.mk s) h
  refine ⟨⟨?_, ?_, ?_⟩, ?_, ?_, ?_⟩
  · exact runCalls_invariant ClapTrap.call (fun x => x.hitPoints = 0)
      ClapTrap.call_hp_zero cs s
  · exact runCalls_invariant ClapTrap.call (fun x => x.energyPoints = 0)
      ClapTrap.call_energy_zero cs s
  · intro pre c post _
    rw [runCalls_snoc_state]
    refine ⟨?_, ?_, ?_⟩
    · intro t e
      subst e
      exact ClapTrap.attack_ineligible _ t (hc pre).symm
    · intro a e
      subst e
      exact ClapTrap.beRepaired_ineligible_state _ a (hc pre).symm
    · intro a e
      subst e
      exact ClapTrap.takeDamage_state _ a
  · exact runCalls_invariant ScavTrap.call (fun x => x.hitPoints = 0)
      ScavTrap.scav_call_hp_zero vs (ScavTrap.mk s)
  · exact runCalls_invariant ScavTrap.call (fun x => x.energyPoints = 0)
      ScavTrap.scav_call_energy_zero vs (ScavTrap.mk s)
  · intro pre c post _
    rw [runCalls_snoc_state]
    refine ⟨?_, ?_, ?_, ?_⟩
    · intro t e
      subst e
      exact ScavTrap.scav_attack_ineligible _ t (hv pre).symm
    · intro a e
      subst e
      exact ScavTrap.scav_beRepaired_ineligible_state _ a (hv pre).symm
    · intro e
      subst e
      rfl
    · intro a e
      subst e
      exact ClapTrap.takeDamage_state _ a

/-- C12, at the states of `src/ex00/main.cpp`: a unit without hit points still
has none after `attack`, `beRepaired(1)` and `takeDamage(3)`; a unit without
energy still has none after the same calls; and a `ScavTrap` without energy
still has none after `attack` and `guardGate`. -/
theorem terminal_states_witness :
    (runCalls ClapTrap.call ⟨"HP-TEST", 0, 10, 0⟩
      [.attack "target", .beRepaired 1, .takeDamage 3]).1.hitPoints = 0 ∧
    (runCalls ClapTrap.call ⟨"ENERGY-TEST", 10, 0, 0⟩
      [.attack "target", .beRepaired 1, .takeDamage 3]).1.energyPoints = 0 ∧
    (runCalls ScavTrap.call ⟨⟨"ENERGY-TEST", 100, 0, 20⟩⟩
      [.attack "dummy", .guardGate]).1.energyPoints = 0 :=
  ⟨(terminal_states ⟨"HP-TEST", 0, 10, 0⟩
      [.attack "target", .beRepaired 1, .takeDamage 3] [] (Or.inl rfl)).1.1 rfl,
   (terminal_states ⟨"ENERGY-TEST", 10, 0, 0⟩
      [.attack "target", .beRepaired 1, .takeDamage 3] [] (Or.inr rfl)).1.2.1 rfl,
   (terminal_states ⟨"ENERGY-TEST", 100, 0, 20⟩
      [] [.attack "dummy", .guardGate] (Or.inr rfl)).2.2.1 rfl⟩

/-- C15. Energy accounting, from every state `s` taken as a `ClapTrap` and as the
`ScavTrap` with these members, and for every list of calls: `energyPoints` does
not increase at any call of the list, and the number of accepted calls (the
`attack` and `beRepaired` calls made while `energyPoints > 0 && hitPoints > 0`)
is `energyPoints` at the start minus `energyPoints` at the end, hence at most
`energyPoints` at the start. -/
theorem energy_accounting (s : ClapTrap) (cs : List ClapCall) (vs : List ScavCall) :
    ((runCalls ClapTrap.call s cs).1.energyPoints +
        acceptedCalls ClapTrap.call ClapTrap.accepts s cs = s.energyPoints ∧
     acceptedCalls ClapTrap.call ClapTrap.accepts s cs =
        s.energyPoints - (runCalls ClapTrap.call s cs).1.energyPoints ∧
     acceptedCalls ClapTrap.call ClapTrap.accepts s cs ≤ s.energyPoints ∧
     (∀ pre c post, cs = pre ++ c :: post →
       (runCalls ClapTrap.call s (pre ++ [c])).1.energyPoints ≤
         (runCalls ClapTrap.call s pre).1.energyPoints)) ∧
    ((runCalls ScavTrap.call (ScavTrap.mk s) vs).1.energyPoints +
        acceptedCalls ScavTrap.call ScavTrap.accepts (ScavTrap.mk s) vs = s.energyPoints ∧
     acceptedCalls ScavTrap.call ScavTrap.accepts (ScavTrap.mk s) vs =
        s.energyPoints - (runCalls ScavTrap.call (ScavTrap.mk s) vs).1.energyPoints ∧
     acceptedCalls ScavTrap.call ScavTrap.accepts (ScavTrap.mk s) vs ≤ s.energyPoints ∧
     (∀ pre c post, vs = pre ++ c :: post →
       (runCalls ScavTrap.call (ScavTrap.mk s) (pre ++ [c])).1.energyPoints ≤
         (runCalls ScavTrap.call (ScavTrap.mk s) pre).1.energyPoints)) := by
  have hc := acceptedCalls_energy ClapTrap.call ClapTrap.accepts
    (fun x => x.energyPoints) ClapTrap.call_energy cs s
  have hv := acceptedCalls_energy ScavTrap.call ScavTrap.accepts
    (fun x => x.energyPoints) ScavTrap.scav_call_energy vs (ScavTrap.mk s)
  simp only at hc hv
  refine ⟨⟨hc, by omega, by omega, ?_⟩, hv, by omega, by omega, ?_⟩
  · intro pre c post _
    rw [runCalls_snoc_state]
    have k := ClapTrap.call_energy (runCalls ClapTrap.call s pre).1 c
    omega
  · intro pre c post _
    rw [runCalls_snoc_state]
    have k := ScavTrap.scav_call_energy (runCalls ScavTrap.call (ScavTrap.mk s) pre).1 c
    omega

/-- C15, at the first block of `src/ex01/main.cpp`: a new `ScavTrap` makes seven
calls, four of them accepted (three attacks and one repair), and ends with
`50 - 4 = 46` energy points; an exhausted `ClapTrap` has no accepted call. -/
theorem energy_accounting_witness :
    acceptedCalls ScavTrap.call ScavTrap.accepts (ScavTrap.ScavTrap_named "SC4V-TP").1
      [.attack "enemy robot", .takeDamage 50, .beRepaired 20, .guardGate,
       .attack "target1", .attack "target2", .guardGate] = 4 ∧
    (runCalls ScavTrap.call (ScavTrap.ScavTrap_named "SC4V-TP").1
      [.attack "enemy robot", .takeDamage 50, .beRepaired 20, .guardGate,
       .attack "target1", .attack "target2", .guardGate]).1.energyPoints = 46 ∧
    acceptedCalls ClapTrap.call ClapTrap.accepts ⟨"ENERGY-TEST", 10, 0, 0⟩
      [.attack "target", .beRepaired 1] ≤ 0 :=
  ⟨by decide, by decide,
   (energy_accounting ⟨"ENERGY-TEST", 10, 0, 0⟩ [.attack "target", .beRepaired 1] []).1.2.2.1⟩

/-! ## What can and cannot lower hitPoints -/

/-- C14, as stated, fails: a new `ClapTrap` after `takeDamage(9)` has 1 hit point
and 10 energy points, `4294967295` is an `unsigned int`, and
`beRepaired(4294967295)` leaves it with 0 hit points. -/
theorem beRepaired_kills :
    ((ClapTrap.ClapTrap_named "CLAP-02").1.takeDamage 9).1.inRange ∧
    0 < ((ClapTrap.ClapTrap_named "CLAP-02").1.takeDamage 9).1.hitPoints ∧
    4294967295 ≤ UINT_MAX ∧
    (((ClapTrap.ClapTrap_named "CLAP-02").1.takeDamage 9).1.beRepaired
      4294967295).1.hitPoints = 0 := by
  decide

/-- C14, amended. From a state with `hitPoints > 0`, taken as a `ClapTrap` and as
the `ScavTrap` with these members, `hitPoints` is still `> 0` after
`ClapTrap::attack`, after `ScavTrap::attack` and after `ScavTrap::guardGate`.
After `ClapTrap::beRepaired(amount)` it is still `> 0` exactly when the repair
is rejected (`energyPoints == 0`) or `hitPoints + amount` modulo `UINT_MAX + 1`
is not 0: only a sum that wraps to exactly 0 kills. `beRepaired` does not lower
`hitPoints` whenever `hitPoints + amount` is at most `UINT_MAX` or
`energyPoints == 0`, and for `unsigned int` values exactly then. -/
theorem only_takeDamage_kills (s : ClapTrap) (target : String) (amount : Nat)
    (h : 0 < s.hitPoints) :
    0 < (s.attack target).1.hitPoints ∧
    0 < ((ScavTrap.mk s).attack target).1.hitPoints ∧
    0 < (ScavTrap.mk s).guardGate.1.hitPoints ∧
    (0 < (s.beRepaired amount).1.hitPoints ↔
      (s.energyPoints = 0 ∨ (s.hitPoints + amount) % (UINT_MAX + 1) ≠ 0)) ∧
    (s.hitPoints + amount ≤ UINT_MAX ∨ s.energyPoints = 0 →
      s.hitPoints ≤ (s.beRepaired amount).1.hitPoints) ∧
    (s.hitPoints ≤ UINT_MAX → amount ≤ UINT_MAX →
      (s.hitPoints ≤ (s.beRepaired amount).1.hitPoints ↔
        (s.hitPoints + amount ≤ UINT_MAX ∨ s.energyPoints = 0))) := by
  have ha : (s.attack target).1.hitPoints = s.hitPoints := by
    unfold ClapTrap.attack
    split <;> rfl
  have hv : ((ScavTrap.mk s).attack target).1.hitPoints = s.hitPoints := by
    unfold ScavTrap.attack
    split <;> rfl
  refine ⟨by omega, by omega, h, ?_⟩
  by_cases he : s.energyPoints = 0
  · rw [ClapTrap.beRepaired_ineligible_state s amount (Or.inl he)]
    exact ⟨⟨fun _ => Or.inl he, fun _ => h⟩, fun _ => Nat.le_refl _,
      fun _ _ => ⟨fun _ => Or.inr he, fun _ => Nat.le_refl _⟩⟩
  · have hg : s.energyPoints > 0 ∧ s.hitPoints > 0 := ⟨Nat.pos_of_ne_zero he, h⟩
    have hr : (s.beRepaired amount).1.hitPoints =
        (s.hitPoints + amount) % (UINT_MAX + 1) := by
      unfold ClapTrap.beRepaired
      simp only [hg, and_self, if_true]
      rfl
    rw [hr]
    unfold UINT_MAX
    refine ⟨?_, ?_, ?_⟩
    · constructor
      · intro hp
        exact Or.inr (by omega)
      · intro hk
        have := hk.resolve_left he
        omega
    · intro hk
      have := hk.resolve_right he
      omega
    · intro h1 h2
      constructor
      · intro hk
        exact Or.inl (by omega)
      · intro hk
        have := hk.resolve_right he
        omega

/-- C14, amended, on a new `ClapTrap` (10 hit points, 10 energy points): the
repair `beRepaired(4294967295)` wraps to 9 hit points, which is not 0, so the
unit is still alive though its hit points are lower; and after `takeDamage(5)`
the repair `beRepaired(3)` does not wrap and leaves no fewer than the 5 hit
points it found. -/
theorem only_takeDamage_kills_witness :
    0 < ((ClapTrap.ClapTrap_named "CLAP-02").1.beRepaired 4294967295).1.hitPoints ∧
    0 < (((ClapTrap.ClapTrap_named "CLAP-02").1.takeDamage 5).1.attack "target").1.hitPoints ∧
    5 ≤ (((ClapTrap.ClapTrap_named "CLAP-02").1.takeDamage 5).1.beRepaired 3).1.hitPoints :=
  ⟨(only_takeDamage_kills (ClapTrap.ClapTrap_named "CLAP-02").1
      "target" 4294967295 (by decide)).2.2.2.1.mpr (Or.inr (by decide)),
   (only_takeDamage_kills ((ClapTrap.ClapTrap_named "CLAP-02").1.takeDamage 5).1
      "target" 3 (by decide)).1,
   (only_takeDamage_kills ((ClapTrap.ClapTrap_named "CLAP-02").1.takeDamage 5).1
      "target" 3 (by decide)).2.2.2.2.1 (Or.inl (by decide))⟩

/-- C16. Damage composes additively with saturation: when `a + b` is
representable in `unsigned int`, `takeDamage(a)` followed by `takeDamage(b)`
leaves exactly the state that a single `takeDamage(a + b)` leaves, and
`takeDamage(0)` leaves the state unchanged. -/
theorem takeDamage_additive (s : ClapTrap) (a b : Nat) (h : a + b ≤ UINT_MAX) :
    ((s.takeDamage a).1.takeDamage b).1 = (s.takeDamage (uadd a b)).1 ∧
    ((s.takeDamage a).1.takeDamage b).1 = (s.takeDamage (a + b)).1 ∧
    (s.takeDamage 0).1 = s := by
  have e : ((s.takeDamage a).1.takeDamage b).1 = (s.takeDamage (a + b)).1 := by
    simp only [ClapTrap.takeDamage_state, Nat.sub_sub]
  refine ⟨?_, e, ?_⟩
  · rw [uadd_of_le a b h]
    exact e
  · rw [ClapTrap.takeDamage_state]
    rfl

/-- C16, on a new `ClapTrap` (10 hit points): `takeDamage(5)` then
`takeDamage(3)` is `takeDamage(8)`, and `takeDamage(5)` then `takeDamage(15)` is
`takeDamage(20)`, which leaves 0 hit points. -/
theorem takeDamage_additive_witness :
    (((ClapTrap.ClapTrap_named "CLAP-02").1.takeDamage 5).1.takeDamage 3).1 =
      ((ClapTrap.ClapTrap_named "CLAP-02").1.takeDamage 8).1 ∧
    (((ClapTrap.ClapTrap_named "CLAP-02").1.takeDamage 5).1.takeDamage 15).1 =
      ((ClapTrap.ClapTrap_named "CLAP-02").1.takeDamage 20).1 ∧
    ((ClapTrap.ClapTrap_named "CLAP-02").1.takeDamage 20).1.hitPoints = 0 :=
  ⟨(takeDamage_additive (ClapTrap.ClapTrap_named "CLAP-02").1 5 3 (by decide)).2.1,
   (takeDamage_additive (ClapTrap.ClapTrap_named "CLAP-02").1 5 15 (by decide)).2.1,
   rfl⟩

end CPP03
